import Mathlib

/-!
Verification of the EnvZilla GitOps preview-environment controller.

This file gives a shallow embedding, in Lean 4, of the parts of the
EnvZilla TypeScript code base that the specification talks about:

* the Redis-backed deployment store (`src/lib/deploymentManager.ts`),
* the webhook dispatcher (`src/middlewares/dispatcherServer.ts`),
* the HMAC signature verifier (`src/middlewares/verifySignature.ts`),
* the AES-256-GCM field encryption in the dispatcher,
* the free-port allocator of `src/lib/buildContainer.ts`,
* the container destroy executor (`lib/destroyContainer.ts`) and the
  destroy job processor (`src/lib/jobQueue.ts`),
* the health snapshot of `src/utils/healthCheck.ts`.

External collaborators (the Redis client, the container engine CLI, the
node crypto library, the operating-system TCP stack) are modeled as
explicit inputs: command outcomes as `Except`-valued fields of a
`DockerEngine` record, randomness and probe results as function
arguments, and the AEAD cipher as an abstract scheme constrained by the
contract the library documents.  Pure JavaScript logic is translated
branch by branch.
-/

namespace EnvZilla

/-! ## Deployment store (`src/lib/deploymentManager.ts`) -/

/-- The status values stored in a deployment record (section 3 of the
specification; the string literals used by the TypeScript code). -/
inductive DeployStatus where
  | queued
  | building
  | running
  | destroying
  | failed
  | stopped
deriving DecidableEq

/-- The `DeploymentInfo` record from `src/types/webhook.ts` as the store
and the dispatcher use it.  Timestamps are abstract naturals. -/
structure DeploymentInfo where
  status : DeployStatus
  containerId : Option String := none
  hostPort : Option Nat := none
  createdAt : Nat := 0
  updatedAt : Option Nat := none
  buildStartedAt : Option Nat := none
  buildCompletedAt : Option Nat := none
  branch : Option String := none
  commitSha : Option String := none
  title : Option String := none
  author : Option String := none
  lastError : Option String := none
deriving DecidableEq

/-- The key-value namespace `envzilla:deployments:<pr>`: an association
list from PR number to record.  Redis key order is irrelevant to the
claims; the list keeps first-match semantics. -/
abbrev Store := List (Nat × DeploymentInfo)

/-- Models `redis.get` on key `envzilla:deployments:<pr>`. -/
def lookupDeployment (s : Store) (pr : Nat) : Option DeploymentInfo :=
  match s.find? (fun e => decide (e.1 = pr)) with
  | some e => some e.2
  | none => none

/-- Raw key write: replace the first binding of `pr`, or append. -/
def setDeploymentKey (s : Store) (pr : Nat) (d : DeploymentInfo) : Store :=
  match s with
  | [] => [(pr, d)]
  | e :: rest => if e.1 = pr then (pr, d) :: rest else e :: setDeploymentKey rest pr d

/-- Models `redis.del` on key `envzilla:deployments:<pr>`
(`DeploymentManager.deleteDeployment`). -/
def deleteDeployment (s : Store) (pr : Nat) : Store :=
  s.filter (fun e => decide (e.1 ≠ pr))

/-- Models `DeploymentManager.setDeployment`: a `redis.setex` of the record with
`updatedAt` stamped to the current time.  The 7-day TTL refresh is not
observable in the store value itself. -/
def setDeployment (s : Store) (pr : Nat) (d : DeploymentInfo) (now : Nat) : Store :=
  setDeploymentKey s pr { d with updatedAt := some now }

/-- The `additionalData?: Partial<DeploymentInfo>` argument of
`updateDeploymentStatus`, restricted to the fields the code base ever
passes (`containerId`, `hostPort`, `buildCompletedAt`, `lastError`). -/
structure DeploymentPatch where
  containerId : Option String := none
  hostPort : Option Nat := none
  buildCompletedAt : Option Nat := none
  lastError : Option String := none
deriving DecidableEq

/-- Object-spread merge `{ ...existing, status, ...additionalData }`:
a field present in the patch overrides the base record. -/
def applyPatch (d : DeploymentInfo) (p : DeploymentPatch) : DeploymentInfo :=
  { d with
    containerId := match p.containerId with | some v => some v | none => d.containerId
    hostPort := match p.hostPort with | some v => some v | none => d.hostPort
    buildCompletedAt := match p.buildCompletedAt with | some v => some v | none => d.buildCompletedAt
    lastError := match p.lastError with | some v => some v | none => d.lastError }

/-- Models `DeploymentManager.updateDeploymentStatus`: read the record; when it
is absent, log a warning and return; otherwise write back the merged
record with the new status. -/
def updateDeploymentStatus (s : Store) (pr : Nat) (st : DeployStatus)
    (p : DeploymentPatch) (now : Nat) : Store :=
  match lookupDeployment s pr with
  | none => s
  | some d => setDeployment s pr (applyPatch { d with status := st } p) now

/-- Modelled from the spec: the non-terminal statuses of section 4.3
(every status except the deletion pseudo-state; `stopped` is never
produced by any writer and is treated as terminal). -/
def nonTerminal : DeployStatus → Bool
  | .queued => true
  | .building => true
  | .running => true
  | .failed => true
  | _ => false

/-- Modelled from the spec: the transition relation of section 4.3, as
enumerated by claim C2 (`queued -> building`, `building -> running`,
`building -> failed`, `running -> destroying`, `failed -> destroying`,
`destroying -> failed`, plus `ttl` transitions of any non-terminal
status to `destroying`).  This definition exists only to state the
claim; the store implementation above is the authority being checked. -/
def specLegalStep (old new : DeployStatus) : Bool :=
  match old, new with
  | .queued, .building => true
  | .building, .running => true
  | .building, .failed => true
  | .running, .destroying => true
  | .failed, .destroying => true
  | .destroying, .failed => true
  | s, .destroying => nonTerminal s
  | _, _ => false

/-- Claim C2 as stated: a status write to the store succeeds only when
the observed current status is a legal predecessor of the new status;
a violating write is rejected (leaves the store unchanged). -/
def claimC2 : Prop :=
  ∀ (s : Store) (pr : Nat) (st : DeployStatus) (p : DeploymentPatch) (now : Nat)
    (d : DeploymentInfo),
    lookupDeployment s pr = some d →
    specLegalStep d.status st = false →
    updateDeploymentStatus s pr st p now = s

/-! ## Webhook dispatcher (`src/middlewares/dispatcherServer.ts`) -/

/-- The slice of the pull-request webhook payload the dispatcher reads. -/
structure PullRequestPayload where
  action : String
  number : Nat
  headRef : Option String := none
  headSha : Option String := none
  title : Option String := none
  authorLogin : Option String := none
deriving DecidableEq

/-- The HTTP responses `dispatchWebhookEvent` can produce on its
non-exceptional paths. -/
inductive DispatchResp where
  | ignoredNotPullRequest
  | ignoredAction (action : String)
  | accepted (pr : Nat) (action : String)
deriving DecidableEq

/-- HTTP status code attached to each dispatcher response. -/
def respStatus : DispatchResp → Nat
  | .ignoredNotPullRequest => 200
  | .ignoredAction _ => 200
  | .accepted _ _ => 202

/-- Models `handleDestroy`: look the record up in the in-memory map; when it is
absent or its `containerId` is falsy (absent or the empty string), log a
warning and return without doing anything; otherwise mark the record
`destroying` and start the asynchronous destroy worker.  The returned
Boolean records whether `worker.destroyForPR` was invoked. -/
def handleDestroy (s : Store) (pr : Nat) : Store × Bool :=
  match lookupDeployment s pr with
  | none => (s, false)
  | some d =>
    match d.containerId with
    | none => (s, false)
    | some cid =>
      if cid = "" then (s, false)
      else (setDeploymentKey s pr { d with status := .destroying }, true)

/-- Models `handleCreateOrUpdate`: upsert the record with status `building` and
payload metadata, then start the asynchronous build worker.  The
returned Boolean records whether `worker.buildForPR` was invoked. -/
def handleCreateOrUpdate (s : Store) (pr : Nat) (pl : PullRequestPayload)
    (now : Nat) : Store × Bool :=
  let base : DeploymentInfo :=
    match lookupDeployment s pr with
    | some d => d
    | none => { status := .building }
  let d1 : DeploymentInfo :=
    { base with
      status := .building
      createdAt := now
      buildStartedAt := some now
      branch := pl.headRef
      commitSha := pl.headSha
      title := pl.title
      author := pl.authorLogin }
  (setDeploymentKey s pr d1, true)

/-- Models `dispatchWebhookEvent`: classify the event and action, run the
matching handler, and answer.  The result carries the HTTP response,
the deployment map after the synchronous part of the handler, and
whether a worker execution was started. -/
def dispatchWebhookEvent (s : Store) (event : Option String)
    (payload : Option PullRequestPayload) (now : Nat) :
    DispatchResp × Store × Bool :=
  match event, payload with
  | some "pull_request", some pl =>
    if pl.action = "opened" ∨ pl.action = "reopened" ∨ pl.action = "synchronize" then
      let r := handleCreateOrUpdate s pl.number pl now
      (.accepted pl.number pl.action, r.1, r.2)
    else if pl.action = "closed" ∨ pl.action = "merged" then
      let r := handleDestroy s pl.number
      (.accepted pl.number pl.action, r.1, r.2)
    else (.ignoredAction pl.action, s, false)
  | _, _ => (.ignoredNotPullRequest, s, false)

/-- True when the dispatcher would find no destroyable deployment for
`pr`: no record, or a record whose `containerId` is absent or empty. -/
def noDeployment (s : Store) (pr : Nat) : Bool :=
  match lookupDeployment s pr with
  | none => true
  | some d =>
    match d.containerId with
    | none => true
    | some cid => cid = ""

/-- Claim C3 as stated: on a `closed` or `merged` event with no
deployment record (or an empty `container_id`), the dispatcher answers
HTTP 200 `no-deployment`, starts no destroy, and changes no state. -/
def claimC3 : Prop :=
  ∀ (s : Store) (pl : PullRequestPayload) (now : Nat),
    (pl.action = "closed" ∨ pl.action = "merged") →
    noDeployment s pl.number = true →
    respStatus (dispatchWebhookEvent s (some "pull_request") (some pl) now).1 = 200 ∧
    (dispatchWebhookEvent s (some "pull_request") (some pl) now).2.1 = s ∧
    (dispatchWebhookEvent s (some "pull_request") (some pl) now).2.2 = false

/-! ## Sensitive-field encryption (`encryptData` / `decryptData` in
`src/middlewares/dispatcherServer.ts`)

The node crypto library is external to the repository.  Its
AES-256-GCM cipher is modeled as an abstract authenticated-encryption
scheme: `enc` maps derived key, IV and message to ciphertext and auth
tag, `dec` either recovers a message or fails (the thrown integrity
error of `decipher.final`).  The contract node documents for GCM is
stated as explicit predicates and assumed as hypotheses of the claim
theorem; a concrete scheme satisfying the contract witnesses
satisfiability.  The scrypt KDF is an abstract function, called with
the same fixed salt on both sides, exactly as the source does. -/

/-- Abstract authenticated cipher: derived key and IV are naturals,
ciphertext and tag are naturals, the message type is a parameter. -/
structure AEAD (M : Type) where
  enc : Nat → Nat → M → Nat × Nat
  dec : Nat → Nat → Nat → Nat → Option M

/-- Decrypting an honestly produced ciphertext/tag pair under the same
key and IV returns the original message. -/
def AEADCorrect {M : Type} (A : AEAD M) : Prop :=
  ∀ k iv m, A.dec k iv (A.enc k iv m).1 (A.enc k iv m).2 = some m

/-- Authenticity: decryption succeeds only on pairs the cipher itself
produces for that key and IV. -/
def AEADAuth {M : Type} (A : AEAD M) : Prop :=
  ∀ k iv c t m, A.dec k iv c t = some m → A.enc k iv m = (c, t)

/-- The auth tag binds IV and message: equal tags under one key come
from the same IV and message. -/
def AEADTagInj {M : Type} (A : AEAD M) : Prop :=
  ∀ k iv m iv2 m2, (A.enc k iv m).2 = (A.enc k iv2 m2).2 → iv = iv2 ∧ m = m2

/-- Under one key and IV the ciphertext determines the message
(CTR-mode encryption is a bijection on the message space). -/
def AEADCipherInj {M : Type} (A : AEAD M) : Prop :=
  ∀ k iv m m2, (A.enc k iv m).1 = (A.enc k iv m2).1 → m = m2

/-- The `EncryptedData` payload travelling with a job: hex ciphertext,
hex IV, hex auth tag (hex strings abstracted to the encoded values). -/
structure EncryptedData where
  encrypted : Nat
  iv : Nat
  tag : Nat
deriving DecidableEq

/-- Models `encryptData(data, key)`: derive a 32-byte key by scrypt from the
secret with the fixed salt, encrypt under a fresh IV, and return
ciphertext, IV and auth tag.  The randomly drawn IV is an argument. -/
def encryptData {M : Type} (A : AEAD M) (kdf : String → Nat)
    (data : M) (key : String) (iv : Nat) : EncryptedData :=
  let keyBuffer := kdf key
  let ct := A.enc keyBuffer iv data
  { encrypted := ct.1, iv := iv, tag := ct.2 }

/-- Models `decryptData(encryptedData, key, iv, tag)`: derive the key by the
same scrypt call and decrypt; `none` is the thrown integrity error. -/
def decryptData {M : Type} (A : AEAD M) (kdf : String → Nat)
    (encrypted : Nat) (key : String) (iv : Nat) (tag : Nat) : Option M :=
  let keyBuffer := kdf key
  A.dec keyBuffer iv encrypted tag

/-- A concrete scheme satisfying the AEAD contract, used to witness the
claim theorem: the tag repeats the ciphertext, both pair the IV with
the message. -/
def pairAEAD : AEAD Nat where
  enc := fun _ iv m => (Nat.pair iv m, Nat.pair iv m)
  dec := fun _ iv c t =>
    if c = t ∧ (Nat.unpair c).1 = iv then some (Nat.unpair c).2 else none

/-! ## Signature verifier (`src/middlewares/verifySignature.ts`) -/

/-- A fragment of the JSON value space sufficient for webhook bodies.
`JSON.parse` and `JSON.stringify` are host-runtime builtins; only the
canonical serialization (`JSON.stringify`) is needed here. -/
inductive Json where
  | num (n : Nat)
  | str (s : String)
  | objOne (key : String) (value : Json)
  | objTwo (key1 : String) (value1 : Json) (key2 : String) (value2 : Json)

/-- Models `JSON.stringify` on the fragment: no whitespace, keys quoted. -/
def jsonStringify : Json → String
  | .num n => toString n
  | .str s => "\"" ++ s ++ "\""
  | .objOne k v => "\x7b\"" ++ k ++ "\":" ++ jsonStringify v ++ "\x7d"
  | .objTwo k1 v1 k2 v2 =>
    "\x7b\"" ++ k1 ++ "\":" ++ jsonStringify v1 ++ ",\"" ++ k2 ++ "\":" ++
      jsonStringify v2 ++ "\x7d"

/-- The request as the verifier middleware sees it.  `wireBytes` is the
body exactly as received on the wire; `rawBody` and `raw` are the
optional captured buffers; `body` is the parsed JSON object, when a
parser ran.  Buffers are modeled as strings (webhook payloads are
ASCII JSON). -/
structure WebhookReq where
  method : String
  sigHeader256 : Option String := none
  sigHeader1 : Option String := none
  rawBody : Option String := none
  raw : Option String := none
  body : Option Json := none
  wireBytes : String := ""

/-- Where the bytes fed to the HMAC came from. -/
inductive PayloadSource where
  | captured
  | rawField
  | reserialized
  | empty
deriving DecidableEq

/-- The payload-buffer selection of `verifySignature` (lines 26-39):
prefer `req.rawBody`, then `req.raw`, then fall back to
`JSON.stringify(req.body)`, then the empty buffer. -/
def hmacPayload (r : WebhookReq) : String :=
  match r.rawBody with
  | some b => b
  | none =>
    match r.raw with
    | some b => b
    | none =>
      match r.body with
      | some j => jsonStringify j
      | none => ""

/-- The branch of the payload selection that was taken. -/
def hmacPayloadSource (r : WebhookReq) : PayloadSource :=
  match r.rawBody with
  | some _ => .captured
  | none =>
    match r.raw with
    | some _ => .rawField
    | none =>
      match r.body with
      | some _ => .reserialized
      | none => .empty

/-- Outcome of the middleware: pass the request on, or answer with an
HTTP status and body. -/
inductive VerifyOutcome where
  | next
  | respond (status : Nat) (body : String)
deriving DecidableEq

/-- Status code of an outcome, when it is a response. -/
def outcomeStatus : VerifyOutcome → Option Nat
  | .next => none
  | .respond st _ => some st

/-- JavaScript truthiness on an optional string: `undefined` and the
empty string are falsy. -/
def truthy : Option String → Option String
  | none => none
  | some s => if s = "" then none else some s

/-- JavaScript `a || b` on optional header strings. -/
def jsOr (a b : Option String) : Option String :=
  match truthy a with
  | some s => some s
  | none => b

/-- Models `verifySignature`, parameterized by the (external) hex HMAC-SHA256
function.  The second component records whether the byte-wise
`timingSafeEqual` comparison was executed; the code guards it behind
the length check, since `timingSafeEqual` throws on unequal lengths.
Lengths of the ASCII header and digest strings stand in for buffer
byte lengths. -/
def verifySignature (hmacHex : String → String → String)
    (secret : Option String) (r : WebhookReq) : VerifyOutcome × Bool :=
  if r.method ≠ "POST" then (.next, false)
  else
    match truthy (jsOr r.sigHeader256 r.sigHeader1), truthy secret with
    | some signatureHeader, some sec =>
      let expected := "sha256=" ++ hmacHex sec (hmacPayload r)
      if signatureHeader.length ≠ expected.length then
        (.respond 401 "Invalid signature", false)
      else if expected ≠ signatureHeader then
        (.respond 401 "Invalid signature", true)
      else (.next, true)
    | _, _ => (.respond 400 "Missing GitHub signature or webhook secret", false)

/-- Claim C1 as stated: assuming any captured buffer is faithful to the
wire, the verifier always feeds the wire bytes to the HMAC and never
re-serializes a parsed body. -/
def claimC1 : Prop :=
  ∀ r : WebhookReq,
    (∀ b, r.rawBody = some b → b = r.wireBytes) →
    (∀ b, r.raw = some b → b = r.wireBytes) →
    hmacPayload r = r.wireBytes ∧ hmacPayloadSource r ≠ .reserialized

/-- Claim C8 as stated: on a POST, a missing (falsy) signature header or
secret fails with an unauthorized (401) result, and a header whose
length differs from the expected `sha256=<hex>` value is rejected with
401 before any byte-wise comparison. -/
def claimC8 : Prop :=
  ∀ (hmacHex : String → String → String) (secret : Option String) (r : WebhookReq),
    r.method = "POST" →
    ((truthy (jsOr r.sigHeader256 r.sigHeader1) = none ∨ truthy secret = none) →
      outcomeStatus (verifySignature hmacHex secret r).1 = some 401) ∧
    (∀ sig sec,
      truthy (jsOr r.sigHeader256 r.sigHeader1) = some sig →
      truthy secret = some sec →
      sig.length ≠ ("sha256=" ++ hmacHex sec (hmacPayload r)).length →
      verifySignature hmacHex secret r = (.respond 401 "Invalid signature", false))

/-! ## Free-port allocator (`findFreePort` in `src/lib/buildContainer.ts`)

The allocator repeatedly draws random ports in the configured range,
skips ports already tried, probes fresh ports in concurrent batches of
at most `concurrency`, returns the first port a probe reports free
(batch results are inspected in draw order), and gives up once
`attempts` distinct ports have all been reported busy.  Its observable
behaviour is a function of the sequence of distinct ports in
first-draw order and of the probe outcomes, both of which are explicit
inputs here; each probe is an OS interaction bounded by
`perCheckTimeoutMs`, and a timed-out probe counts as busy. -/

/-- The `PORT_CONFIG` constant object. -/
structure PortConfig where
  min : Nat
  max : Nat
  attempts : Nat
  concurrency : Nat
  perCheckTimeoutMs : Nat
deriving DecidableEq

/-- The configured values of `PORT_CONFIG`. -/
def PORT_CONFIG : PortConfig :=
  { min := 5001, max := 5999, attempts := 200, concurrency := 50
    perCheckTimeoutMs := 250 }

/-- One random draw mapped into the port range:
`Math.floor(Math.random() * (max - min + 1)) + min`. -/
def mkPort (r : Nat) : Nat :=
  PORT_CONFIG.min + r % (PORT_CONFIG.max - PORT_CONFIG.min + 1)

/-- Distinct values of a draw sequence in first-occurrence order (the
`tried` set of the source keeps only fresh ports). -/
def firstOccsAux (seen : List Nat) : List Nat → List Nat
  | [] => []
  | x :: xs =>
    if x ∈ seen then firstOccsAux seen xs
    else x :: firstOccsAux (x :: seen) xs

/-- Distinct values of a draw sequence in first-occurrence order. -/
def firstOccs (l : List Nat) : List Nat := firstOccsAux [] l

/-- Split a list into consecutive chunks of size `n` (the concurrent
probe batches); `cur` accumulates the current chunk reversed. -/
def chunkAux (n : Nat) (cur : List Nat) : List Nat → List (List Nat)
  | [] => if cur.isEmpty then [] else [cur.reverse]
  | x :: xs =>
    if cur.length + 1 = n then (x :: cur).reverse :: chunkAux n [] xs
    else chunkAux n (x :: cur) xs

/-- Split a list into consecutive chunks of size at most `n`. -/
def chunked (n : Nat) (l : List Nat) : List (List Nat) :=
  chunkAux n [] l

/-- Probe the batches in order; inside a batch, return the first port
reported free (the source iterates the settled batch in order). -/
def scanBatches (free : Nat → Bool) : List (List Nat) → Option Nat
  | [] => none
  | b :: bs =>
    match b.find? free with
    | some p => some p
    | none => scanBatches free bs

/-- Models `findFreePort` on the fresh-port sequence: probe at most
`attempts` distinct ports, in batches of `concurrency`; `none` is the
thrown `Could not find a free port` error. -/
def findFreePort (fresh : List Nat) (free : Nat → Bool) : Option Nat :=
  scanBatches free (chunked PORT_CONFIG.concurrency (fresh.take PORT_CONFIG.attempts))

/-- Models `findFreePort` as a function of the raw random draw sequence. -/
def findFreePortR (draws : List Nat) (free : Nat → Bool) : Option Nat :=
  findFreePort (firstOccs (draws.map mkPort)) free

/-! ## Health snapshot (`performHealthCheck` in `src/utils/healthCheck.ts`) -/

/-- The top-level health states. -/
inductive HealthState where
  | healthy
  | degraded
  | unhealthy
deriving DecidableEq

/-- Models `getMemoryInfo().percentage` in exact centi-percent units:
`Math.round(heapUsed / heapTotal * 100 * 100)`, i.e. the percentage
rounded to two decimals and scaled by 100.  `Math.round(z)` is
`floor(z + 1/2)`, which for `z = used * 10000 / total` equals the
integer division below.  A zero heap total (which the runtime never
produces) yields 0, so the 90% comparison is false, exactly as the
NaN comparison is in JavaScript. -/
def memPercentageCentis (used total : Nat) : Nat :=
  (used * 10000 * 2 + total) / (2 * total)

/-- The `errors` list accumulated by `performHealthCheck`: one entry
when the engine probe failed, one when the rounded memory percentage
exceeds 90 (`memoryInfo.percentage > 90`, i.e. more than 9000
centi-percent). -/
def healthErrors (docker : Bool) (used total : Nat) : List String :=
  (if docker then [] else ["Docker is not available or not responding"]) ++
  (if memPercentageCentis used total > 9000 then
    ["High memory usage: " ++ toString (memPercentageCentis used total) ++
      " centi-percent"]
  else [])

/-- The overall status computation of `performHealthCheck`: start from
`healthy`; when any error was detected, the status is `unhealthy` when
failed deployments outnumber running ones and `degraded` otherwise. -/
def overallStatus (docker : Bool) (used total failed running : Nat) : HealthState :=
  if healthErrors docker used total ≠ [] then
    if failed > running then .unhealthy else .degraded
  else .healthy

/-- Claim C7 as stated: `healthy` when no errors were detected,
`degraded` when the engine is down or memory exceeds 90%, and
`unhealthy` when failed deployments outnumber running ones. -/
def claimC7 : Prop :=
  ∀ (docker : Bool) (used total failed running : Nat),
    (healthErrors docker used total = [] →
      overallStatus docker used total failed running = .healthy) ∧
    ((docker = false ∨ memPercentageCentis used total > 9000) →
      overallStatus docker used total failed running = .degraded) ∧
    (failed > running →
      overallStatus docker used total failed running = .unhealthy)

/-! ## Destroy executor (`lib/destroyContainer.ts`) and destroy job
(`src/lib/jobQueue.ts`)

Each `docker` CLI invocation through `runCommand` either resolves with
an exit code, stdout and stderr, or rejects (spawn error or the
SIGKILL timeout).  The engine is modeled as a record of per-command
outcomes; a rejected promise is an `Except.error` carrying the
message.  Alongside the `DestroyResult`, each function returns the
list of engine commands it actually ran. -/

/-- A resolved `runCommand` result. -/
structure CmdOut where
  exitCode : Nat
  stdout : String
  stderr : String
deriving DecidableEq

/-- A `runCommand` outcome: resolved, or rejected with a message. -/
abbrev CmdRes := Except String CmdOut

/-- One engine command, with its argument, for the execution log. -/
inductive DockerCmd where
  | stop (c : String)
  | rm (c : String)
  | rmForce (c : String)
  | inspectImage (c : String)
  | rmi (image : String)
  | listImages (pattern : String)
  | ps (name : String)
deriving DecidableEq

/-- The container engine, as a map from commands to outcomes. -/
structure DockerEngine where
  stop : String → CmdRes
  rm : String → CmdRes
  rmForce : String → CmdRes
  inspectImage : String → CmdRes
  rmi : String → CmdRes
  listImages : String → CmdRes
  ps : String → CmdRes

/-- Lower-case hexadecimal digit. -/
def isLowerHex (c : Char) : Bool :=
  c.isDigit || (decide (c ≥ 'a') && decide (c ≤ 'f'))

/-- The container-id validation of `destroyContainer`: a full 64-char
lower-case hex id, or 3 to 64 alphanumeric characters. -/
def isValidId (cid : String) : Bool :=
  (decide (cid.length = 64) && cid.data.all isLowerHex) ||
  (decide (3 ≤ cid.length) && decide (cid.length ≤ 64) && cid.data.all Char.isAlphanum)

/-- The `DestroyResult` record. -/
structure DestroyResult where
  success : Bool
  containerId : String
  containerDestroyed : Bool
  imageDestroyed : Bool
  errors : List String
deriving DecidableEq

/-- Models `haystack.includes(needle)` on strings. -/
def containsSub (s pat : String) : Bool :=
  s.data.tails.any (fun t => pat.data.isPrefixOf t)

/-- The `for` loop over PR-tagged images inside
`destroyAssociatedImages`: failures of individual `docker rmi` calls
are only logged, a rejected call escapes to the surrounding catch
(first component of the result). -/
def rmiPatternLoop (eng : DockerEngine) :
    List String → List DockerCmd → Option String × List DockerCmd
  | [], log => (none, log)
  | img :: rest, log =>
    match eng.rmi img with
    | .error e => (some e, log ++ [.rmi img])
    | .ok _ => rmiPatternLoop eng rest (log ++ [.rmi img])

/-- The PR-pattern half of `destroyAssociatedImages`: list images
matching `preview-pr-<N>*`, remove each match.  `imgDestroyed` and
`errs` carry the state accumulated by the inspect half; a rejection
lands in the shared catch, which appends one aggregated error. -/
def afterImagePart (pr : Option Nat) (eng : DockerEngine)
    (imgDestroyed : Bool) (errs : List String) (log : List DockerCmd) :
    Bool × List String × List DockerCmd :=
  match pr with
  | none => (imgDestroyed, errs, log)
  | some n =>
    let pat := "preview-pr-" ++ toString n
    match eng.listImages pat with
    | .error e =>
      (imgDestroyed, errs ++ ["Error destroying associated images: " ++ e],
        log ++ [.listImages pat])
    | .ok lr =>
      if lr.exitCode = 0 && lr.stdout.trim ≠ "" then
        let images := (lr.stdout.trim.splitOn "\n").filter (fun img => containsSub img pat)
        match rmiPatternLoop eng images (log ++ [.listImages pat]) with
        | (none, log2) => (imgDestroyed, errs, log2)
        | (some e, log2) =>
          (imgDestroyed, errs ++ ["Error destroying associated images: " ++ e], log2)
      else (imgDestroyed, errs, log ++ [.listImages pat])

/-- Models `destroyAssociatedImages`: inspect the container for its image id
and remove it, then sweep PR-tagged images; every rejection is caught
inside this function and recorded as an aggregated error. -/
def destroyAssociatedImages (cid : String) (pr : Option Nat)
    (eng : DockerEngine) : Bool × List String × List DockerCmd :=
  match eng.inspectImage cid with
  | .error e =>
    (false, ["Error destroying associated images: " ++ e], [.inspectImage cid])
  | .ok insp =>
    if insp.exitCode = 0 then
      let imageId := insp.stdout.trim
      if imageId = "" then afterImagePart pr eng false [] [.inspectImage cid]
      else
        match eng.rmi imageId with
        | .error e =>
          (false, ["Error destroying associated images: " ++ e],
            [.inspectImage cid, .rmi imageId])
        | .ok r =>
          if r.exitCode = 0 then
            afterImagePart pr eng true [] [.inspectImage cid, .rmi imageId]
          else
            afterImagePart pr eng false
              ["Failed to remove image " ++ imageId ++ ": " ++ r.stderr.trim]
              [.inspectImage cid, .rmi imageId]
    else afterImagePart pr eng false [] [.inspectImage cid]

/-- The removal loop of `cleanupByContainerName`: forced-remove every
listed container other than the one just destroyed; failures are only
logged, a rejection stops the loop via the local catch. -/
def cleanupRmLoop (eng : DockerEngine) (selfId : String) :
    List String → List DockerCmd → List DockerCmd
  | [], log => log
  | i :: rest, log =>
    if i ≠ "" ∧ i ≠ selfId then
      match eng.rmForce i with
      | .error _ => log ++ [.rmForce i]
      | .ok _ => cleanupRmLoop eng selfId rest (log ++ [.rmForce i])
    else cleanupRmLoop eng selfId rest log

/-- Models `cleanupByContainerName`: list containers by name and
forced-remove residual ones; it only ever logs, so the model returns
just the command log. -/
def cleanupByContainerName (name selfId : String) (eng : DockerEngine) :
    List DockerCmd :=
  match eng.ps name with
  | .error _ => [.ps name]
  | .ok pres =>
    if pres.exitCode = 0 && pres.stdout.trim ≠ "" then
      cleanupRmLoop eng selfId (pres.stdout.trim.splitOn "\n") [.ps name]
    else [.ps name]

/-- Steps 3 and 4 and the final assembly of `destroyContainer`, shared
by every non-rejecting branch: optional image removal (only after the
container was removed), optional sweep by container name, and
`result.success := result.containerDestroyed`. -/
def destroyContainerRest (cid : String) (pr : Option Nat)
    (destroyImage : Bool) (containerName : Option String)
    (eng : DockerEngine) (containerDestroyed : Bool) (errs : List String)
    (log : List DockerCmd) : DestroyResult × List DockerCmd :=
  let step3 : Bool × List String × List DockerCmd :=
    if destroyImage && containerDestroyed then
      let r := destroyAssociatedImages cid pr eng
      (r.1, errs ++ r.2.1, log ++ r.2.2)
    else (false, errs, log)
  let log4 : List DockerCmd :=
    match containerName with
    | some name =>
      if containerDestroyed then step3.2.2 ++ cleanupByContainerName name cid eng
      else step3.2.2
    | none => step3.2.2
  ({ success := containerDestroyed, containerId := cid,
     containerDestroyed := containerDestroyed, imageDestroyed := step3.1,
     errors := step3.2.1 }, log4)

/-- Models `destroyContainer`: validate the id, gracefully stop, remove (with
a forced fallback), then the shared tail.  A rejected stop or remove
escapes to the outer catch, which records one aggregated error and
returns the result accumulated so far (`success` still `false`). -/
def destroyContainer (cid : String) (pr : Option Nat)
    (destroyImage : Bool) (containerName : Option String)
    (eng : DockerEngine) : DestroyResult × List DockerCmd :=
  if isValidId cid = false then
    ({ success := false, containerId := cid, containerDestroyed := false,
       imageDestroyed := false,
       errors := ["Invalid container id provided: " ++ cid] }, [])
  else
    match eng.stop cid with
    | .error e =>
      ({ success := false, containerId := cid, containerDestroyed := false,
         imageDestroyed := false,
         errors := ["Error during container destroy: " ++ e] }, [.stop cid])
    | .ok stopR =>
      let errs0 : List String :=
        if stopR.exitCode = 0 then []
        else ["Failed to stop container: " ++
          (if stopR.stderr.trim = "" then "Unknown error" else stopR.stderr.trim)]
      match eng.rm cid with
      | .error e =>
        ({ success := false, containerId := cid, containerDestroyed := false,
           imageDestroyed := false,
           errors := errs0 ++ ["Error during container destroy: " ++ e] },
          [.stop cid, .rm cid])
      | .ok rmR =>
        if rmR.exitCode = 0 then
          destroyContainerRest cid pr destroyImage containerName eng true errs0
            [.stop cid, .rm cid]
        else
          match eng.rmForce cid with
          | .error e =>
            ({ success := false, containerId := cid, containerDestroyed := false,
               imageDestroyed := false,
               errors := errs0 ++ ["Error during container destroy: " ++ e] },
              [.stop cid, .rm cid, .rmForce cid])
          | .ok fR =>
            if fR.exitCode = 0 then
              destroyContainerRest cid pr destroyImage containerName eng true errs0
                [.stop cid, .rm cid, .rmForce cid]
            else
              destroyContainerRest cid pr destroyImage containerName eng false
                (errs0 ++ ["Failed to remove container: " ++ rmR.stderr.trim ++
                  " | Forced: " ++ fR.stderr.trim])
                [.stop cid, .rm cid, .rmForce cid]

/-- The per-container loop of `destroyByPRNumber`. -/
def destroyEach (pr : Nat) (name : String) (eng : DockerEngine) :
    List String → List DockerCmd → List DestroyResult × List DockerCmd
  | [], log => ([], log)
  | i :: rest, log =>
    let r := destroyContainer i (some pr) true (some name) eng
    let rs := destroyEach pr name eng rest (log ++ r.2)
    (r.1 :: rs.1, rs.2)

/-- Models `destroyByPRNumber`: list containers named `preview-<N>` and
destroy each with image removal and name sweep; a rejected listing is
caught and reported as a single failed result. -/
def destroyByPRNumber (pr : Nat) (eng : DockerEngine) :
    List DestroyResult × List DockerCmd :=
  match eng.ps ("preview-" ++ toString pr) with
  | .error e =>
    ([{ success := false, containerId := "", containerDestroyed := false,
        imageDestroyed := false,
        errors := ["Error finding containers: " ++ e] }],
      [.ps ("preview-" ++ toString pr)])
  | .ok pres =>
    if pres.exitCode = 0 && pres.stdout.trim ≠ "" then
      destroyEach pr ("preview-" ++ toString pr) eng
        ((pres.stdout.trim.splitOn "\n").filter (fun i => i ≠ ""))
        [.ps ("preview-" ++ toString pr)]
    else ([], [.ps ("preview-" ++ toString pr)])

/-- The default result `destroyForPR` substitutes when the by-PR path
found no containers. -/
def noContainersResult : DestroyResult :=
  { success := false, containerId := "", containerDestroyed := false,
    imageDestroyed := false, errors := ["No containers found for PR"] }

/-- Models `worker.destroyForPR`: destroy the given container directly when a
usable id is present, otherwise enumerate containers by PR number.
The first component of the payload is the exit code
(`destroyResult.success ? 0 : 1`); `none` is the path that throws and
falls back to the legacy external script (id and PR both absent). -/
def destroyForPR (cid : String) (pr : Option Nat) (eng : DockerEngine) :
    Option ((Nat × DestroyResult) × List DockerCmd) :=
  if cid ≠ "" ∧ cid ≠ "undefined" then
    let name := pr.map (fun n => "preview-" ++ toString n)
    let r := destroyContainer cid pr true name eng
    some ((if r.1.success then 0 else 1, r.1), r.2)
  else
    match pr with
    | some n =>
      let r := destroyByPRNumber n eng
      let dr := r.1.headD noContainersResult
      some ((if dr.success then 0 else 1, dr), r.2)
    | none => none

/-- The stderr string `destroyForPR` reports: the aggregated step
errors, newline-joined. -/
def destroyStderr (dr : DestroyResult) : String :=
  String.intercalate "\n" dr.errors

/-- The store effect of the `destroy-container` job processor: run the
destroy, then delete the record on exit code 0, otherwise set it to
`failed` with the aggregated errors in `lastError`. -/
def processDestroyJob (s : Store) (pr : Nat) (containerId : Option String)
    (eng : DockerEngine) (now : Nat) : Store :=
  match destroyForPR (containerId.getD "") (some pr) eng with
  | some ((code, dr), _) =>
    if code = 0 then deleteDeployment s pr
    else
      updateDeploymentStatus s pr .failed
        { lastError := some ("Destroy completed with warnings: " ++ destroyStderr dr) } now
  | none => s

/-- A container engine whose every command rejects: used as concrete
input data by witnesses. -/
def failEngine : DockerEngine where
  stop := fun _ => .error "boom"
  rm := fun _ => .error "boom"
  rmForce := fun _ => .error "boom"
  inspectImage := fun _ => .error "boom"
  rmi := fun _ => .error "boom"
  listImages := fun _ => .error "boom"
  ps := fun _ => .error "boom"

/-! ## Helper lemmas -/

theorem lookup_setDeploymentKey (s : Store) (pr : Nat) (d : DeploymentInfo) :
    lookupDeployment (setDeploymentKey s pr d) pr = some d := by
  induction s with
  | nil => simp [setDeploymentKey, lookupDeployment, List.find?]
  | cons e rest ih =>
    by_cases h : e.1 = pr
    · simp [setDeploymentKey, h, lookupDeployment, List.find?]
    · simpa [setDeploymentKey, h, lookupDeployment, List.find?] using ih

theorem lookup_deleteDeployment (s : Store) (pr : Nat) :
    lookupDeployment (deleteDeployment s pr) pr = none := by
  induction s with
  | nil => simp [deleteDeployment, lookupDeployment, List.find?]
  | cons e rest ih =>
    by_cases h : e.1 = pr
    · simpa [deleteDeployment, lookupDeployment, List.filter, h] using ih
    · simpa [deleteDeployment, lookupDeployment, List.filter, List.find?, h] using ih

/-- Shared description of a status write on an existing record: the
merged record is stored unconditionally. -/
theorem lookupDeployment_update_of_some (s : Store) (pr : Nat)
    (st : DeployStatus) (p : DeploymentPatch) (now : Nat) (d : DeploymentInfo)
    (h : lookupDeployment s pr = some d) :
    lookupDeployment (updateDeploymentStatus s pr st p now) pr =
      some { applyPatch { d with status := st } p with updatedAt := some now } := by
  simp [updateDeploymentStatus, h, setDeployment, lookup_setDeploymentKey]

/-- Lemma: `handleDestroy` is a no-op when there is nothing to destroy. -/
theorem handleDestroy_noDeployment (s : Store) (pr : Nat)
    (h : noDeployment s pr = true) : handleDestroy s pr = (s, false) := by
  cases hl : lookupDeployment s pr with
  | none => simp [handleDestroy, hl]
  | some d =>
    cases hc : d.containerId with
    | none => simp [handleDestroy, hl, hc]
    | some cid =>
      have hcid : cid = "" := by
        have h2 := h
        simp [noDeployment, hl, hc] at h2
        exact h2
      simp [handleDestroy, hl, hc, hcid]

/-! ## Claim theorems: deployment store -/

/-- Counterexample to claim C2: the store accepts the illegal
transition `running -> building` on PR 7 instead of rejecting it. -/
theorem claimC2_counterexample : ¬ claimC2 := by
  intro h
  have h2 := h [(7, { status := .running, containerId := some "abc123def456" })] 7
    .building {} 5 { status := .running, containerId := some "abc123def456" }
    (by decide) (by decide)
  exact absurd h2 (by decide)

/-- C2 (amended): `DeploymentManager.updateDeploymentStatus` performs no
state-machine check at all.  A status write is rejected exactly when the
record is absent; on an existing record, any new status whatsoever is
stored (merged with the patch and a fresh `updatedAt`), whether or not
the observed status is a legal predecessor under section 4.3. -/
theorem updateDeploymentStatus_unconditional (s : Store) (pr : Nat)
    (st : DeployStatus) (p : DeploymentPatch) (now : Nat) (d : DeploymentInfo)
    (h : lookupDeployment s pr = some d) :
    lookupDeployment (updateDeploymentStatus s pr st p now) pr =
      some { applyPatch { d with status := st } p with updatedAt := some now } :=
  lookupDeployment_update_of_some s pr st p now d h

/-- Witness for the amended C2 theorem: the illegal write
`running -> building` on PR 7 is applied, not rejected. -/
theorem updateDeploymentStatus_unconditional_witness :
    lookupDeployment
      (updateDeploymentStatus [(7, { status := .running })] 7 .building {} 5) 7 =
      some { status := .building, updatedAt := some 5 } := by
  have h := updateDeploymentStatus_unconditional [(7, { status := .running })] 7
    .building {} 5 { status := .running } (by decide)
  simpa [applyPatch] using h

/-- C9: updating the status of a PR with no record in the store is a
pure no-op; the store value is returned unchanged. -/
theorem updateDeploymentStatus_missing_noop (s : Store) (pr : Nat)
    (st : DeployStatus) (p : DeploymentPatch) (now : Nat)
    (h : lookupDeployment s pr = none) :
    updateDeploymentStatus s pr st p now = s := by
  simp [updateDeploymentStatus, h]

/-- Witness for the C9 theorem on a concrete store without PR 9. -/
theorem updateDeploymentStatus_missing_noop_witness :
    lookupDeployment [(7, ({ status := .running } : DeploymentInfo))] 9 = none ∧
    updateDeploymentStatus [(7, { status := .running })] 9 .failed {} 3 =
      [(7, { status := .running })] :=
  ⟨by decide,
    updateDeploymentStatus_missing_noop [(7, { status := .running })] 9 .failed {} 3
      (by decide)⟩

/-! ## Claim theorems: dispatcher destroy path -/

/-- Counterexample to claim C3: a `closed` event for PR 999, which has
no deployment record, is answered with HTTP 202 `accepted`, not with
HTTP 200 `no-deployment`. -/
theorem claimC3_counterexample : ¬ claimC3 := by
  intro h
  have h2 := (h [] { action := "closed", number := 999 } 0 (Or.inl rfl) (by decide)).1
  exact absurd h2 (by decide)

/-- C3 (amended): on a `closed` or `merged` event whose PR has no
record, or a record with an absent or empty `container_id`, the
dispatcher starts no destroy and leaves the deployment map unchanged,
but it answers HTTP 202 `accepted` (the no-deployment case is only
logged as a warning, and control falls through to the generic accepted
response). -/
theorem dispatch_destroy_no_record (s : Store) (pl : PullRequestPayload)
    (now : Nat) (hact : pl.action = "closed" ∨ pl.action = "merged")
    (hnd : noDeployment s pl.number = true) :
    dispatchWebhookEvent s (some "pull_request") (some pl) now =
      (.accepted pl.number pl.action, s, false) ∧
    respStatus (dispatchWebhookEvent s (some "pull_request") (some pl) now).1 = 202 := by
  have hd := handleDestroy_noDeployment s pl.number hnd
  rcases hact with h | h <;>
    refine ⟨?_, ?_⟩ <;>
      simp [dispatchWebhookEvent, h, hd, respStatus]

/-- Witness for the amended C3 theorem: PR 999, empty store. -/
theorem dispatch_destroy_no_record_witness :
    dispatchWebhookEvent [] (some "pull_request")
        (some { action := "closed", number := 999 }) 0 =
      (.accepted 999 "closed", [], false) :=
  (dispatch_destroy_no_record [] { action := "closed", number := 999 } 0
    (Or.inl rfl) (by decide)).1

/-! ## Claim theorems: signature verifier -/

/-- Counterexample to claim C1: a POST request whose raw body was not
captured (no `rawBody`, no `raw`) but whose body was parsed is
verified against `JSON.stringify(req.body)`; for the wire bytes
`{"a": 1}` (with a space) the verifier hashes the re-serialized
`{"a":1}` instead of the bytes received on the wire. -/
theorem claimC1_counterexample : ¬ claimC1 := by
  intro h
  have h2 := h
    { method := "POST", body := some (.objOne "a" (.num 1)),
      wireBytes := "\x7b\"a\": 1\x7d" }
    (fun b hb => nomatch hb) (fun b hb => nomatch hb)
  exact h2.2 rfl

/-- C1 (amended): when a raw body buffer was captured (as the deployed
server does through the `express.json` verify hook), the verifier
hashes exactly those bytes; but when no capture is present and a
parsed body exists, the verifier falls back to re-serializing the
parsed object and hashes `JSON.stringify(req.body)` instead of the
wire bytes. -/
theorem hmacPayload_capture_and_fallback (r : WebhookReq) :
    (r.rawBody = some r.wireBytes →
      hmacPayload r = r.wireBytes ∧ hmacPayloadSource r = .captured) ∧
    (r.rawBody = none → r.raw = none → ∀ j, r.body = some j →
      hmacPayload r = jsonStringify j ∧ hmacPayloadSource r = .reserialized) := by
  constructor
  · intro h
    simp [hmacPayload, hmacPayloadSource, h]
  · intro h1 h2 j h3
    simp [hmacPayload, hmacPayloadSource, h1, h2, h3]

/-- Witness for the amended C1 theorem: both branches at concrete
requests. -/
theorem hmacPayload_capture_and_fallback_witness :
    (hmacPayload { method := "POST", rawBody := some "payload", wireBytes := "payload" } =
        "payload" ∧
      hmacPayloadSource { method := "POST", rawBody := some "payload", wireBytes := "payload" } =
        .captured) ∧
    (hmacPayload { method := "POST", body := some (.objOne "a" (.num 1)),
                   wireBytes := "\x7b\"a\": 1\x7d" } =
        "\x7b\"a\":1\x7d" ∧
      hmacPayloadSource { method := "POST", body := some (.objOne "a" (.num 1)),
                          wireBytes := "\x7b\"a\": 1\x7d" } = .reserialized) :=
  ⟨(hmacPayload_capture_and_fallback
      { method := "POST", rawBody := some "payload", wireBytes := "payload" }).1 rfl,
    (hmacPayload_capture_and_fallback
      { method := "POST", body := some (.objOne "a" (.num 1)),
        wireBytes := "\x7b\"a\": 1\x7d" }).2 rfl rfl _ rfl⟩

/-- Counterexample to claim C8: a POST with no signature header at all
is rejected with HTTP 400 (`Missing GitHub signature or webhook
secret`), not with a 401 unauthorized result. -/
theorem claimC8_counterexample : ¬ claimC8 := by
  intro h
  have h2 := (h (fun _ _ => "") (some "s") { method := "POST" } rfl).1 (Or.inl rfl)
  exact absurd h2 (by decide)

/-- C8 (amended): on a POST, a missing (falsy) signature header or
missing secret is rejected with HTTP 400, before any HMAC is computed;
a signature header whose length differs from the expected
`sha256=<hex>` string is rejected with HTTP 401 without the byte-wise
`timingSafeEqual` comparison ever running (the length guard
short-circuits it). -/
theorem verifySignature_reject_spec (hmacHex : String → String → String)
    (secret : Option String) (r : WebhookReq) (hm : r.method = "POST") :
    ((truthy (jsOr r.sigHeader256 r.sigHeader1) = none ∨ truthy secret = none) →
      verifySignature hmacHex secret r =
        (.respond 400 "Missing GitHub signature or webhook secret", false)) ∧
    (∀ sig sec, truthy (jsOr r.sigHeader256 r.sigHeader1) = some sig →
      truthy secret = some sec →
      sig.length ≠ ("sha256=" ++ hmacHex sec (hmacPayload r)).length →
      verifySignature hmacHex secret r = (.respond 401 "Invalid signature", false)) := by
  constructor
  · intro hmiss
    rcases hmiss with hmiss | hmiss <;>
      · unfold verifySignature
        rw [if_neg (by simp [hm])]
        cases h1 : truthy (jsOr r.sigHeader256 r.sigHeader1) <;>
          cases h2 : truthy secret <;>
            simp_all
  · intro sig sec h1 h2 hlen
    unfold verifySignature
    rw [if_neg (by simp [hm]), h1, h2]
    exact if_pos hlen

/-- Witness for the amended C8 theorem: a header-less POST gets 400; a
POST with the short header `sha256=short` gets 401 with no byte
comparison. -/
theorem verifySignature_reject_spec_witness :
    verifySignature (fun _ _ => String.mk (List.replicate 64 'a')) (some "s")
        { method := "POST" } =
      (.respond 400 "Missing GitHub signature or webhook secret", false) ∧
    verifySignature (fun _ _ => String.mk (List.replicate 64 'a')) (some "s")
        { method := "POST", sigHeader256 := some "sha256=short" } =
      (.respond 401 "Invalid signature", false) :=
  ⟨(verifySignature_reject_spec (fun _ _ => String.mk (List.replicate 64 'a'))
      (some "s") { method := "POST" } rfl).1 (Or.inl rfl),
    (verifySignature_reject_spec (fun _ _ => String.mk (List.replicate 64 'a'))
      (some "s") { method := "POST", sigHeader256 := some "sha256=short" } rfl).2
      "sha256=short" "s" rfl rfl (by decide)⟩

/-! ## Claim theorems: sensitive-field encryption -/

theorem pairAEAD_correct : AEADCorrect pairAEAD := by
  intro k iv m
  simp [pairAEAD, Nat.unpair_pair]

theorem pairAEAD_auth : AEADAuth pairAEAD := by
  intro k iv c t m h
  simp only [pairAEAD] at h
  split at h
  · rename_i hcond
    obtain ⟨hct, hiv⟩ := hcond
    obtain rfl : (Nat.unpair c).2 = m := by
      simpa using h
    simp [pairAEAD, ← hiv, Nat.pair_unpair, hct]
  · exact absurd h (by simp)

theorem pairAEAD_tagInj : AEADTagInj pairAEAD := by
  intro k iv m iv2 m2 h
  simp only [pairAEAD] at h
  have h2 := congrArg Nat.unpair h
  simpa [Nat.unpair_pair] using h2

theorem pairAEAD_cipherInj : AEADCipherInj pairAEAD := by
  intro k iv m m2 h
  simp only [pairAEAD] at h
  have h2 := congrArg Nat.unpair h
  simpa [Nat.unpair_pair] using h2

/-- C4: under the documented AEAD contract of the cipher, decrypting
the output of `encryptData` with the same secret (hence the same
scrypt-derived key), the produced IV and the produced auth tag yields
the original data; and altering the ciphertext, the IV, or the auth
tag away from what encryption produced makes `decryptData` fail with
the integrity error (`none`) instead of returning a value. -/
theorem encryptData_decryptData_spec {M : Type} (A : AEAD M)
    (hc : AEADCorrect A) (ha : AEADAuth A) (ht : AEADTagInj A)
    (hx : AEADCipherInj A) (kdf : String → Nat) (data : M) (key : String)
    (iv : Nat) :
    (decryptData A kdf (encryptData A kdf data key iv).encrypted key
        (encryptData A kdf data key iv).iv (encryptData A kdf data key iv).tag =
      some data) ∧
    (∀ c2, c2 ≠ (encryptData A kdf data key iv).encrypted →
      decryptData A kdf c2 key (encryptData A kdf data key iv).iv
        (encryptData A kdf data key iv).tag = none) ∧
    (∀ iv2, iv2 ≠ (encryptData A kdf data key iv).iv →
      decryptData A kdf (encryptData A kdf data key iv).encrypted key iv2
        (encryptData A kdf data key iv).tag = none) ∧
    (∀ t2, t2 ≠ (encryptData A kdf data key iv).tag →
      decryptData A kdf (encryptData A kdf data key iv).encrypted key
        (encryptData A kdf data key iv).iv t2 = none) := by
  simp only [encryptData, decryptData]
  refine ⟨hc (kdf key) iv data, ?_, ?_, ?_⟩
  · intro c2 hne
    by_contra hsome
    obtain ⟨m, hm⟩ := Option.ne_none_iff_exists.mp hsome
    have henc := ha (kdf key) iv c2 (A.enc (kdf key) iv data).2 m hm.symm
    have htag : (A.enc (kdf key) iv m).2 = (A.enc (kdf key) iv data).2 := by
      rw [henc]
    obtain ⟨-, rfl⟩ := ht (kdf key) iv m iv data htag
    exact hne (by rw [henc])
  · intro iv2 hne
    by_contra hsome
    obtain ⟨m, hm⟩ := Option.ne_none_iff_exists.mp hsome
    have henc := ha (kdf key) iv2 (A.enc (kdf key) iv data).1
      (A.enc (kdf key) iv data).2 m hm.symm
    have htag : (A.enc (kdf key) iv2 m).2 = (A.enc (kdf key) iv data).2 := by
      rw [henc]
    obtain ⟨rfl, -⟩ := ht (kdf key) iv2 m iv data htag
    exact hne rfl
  · intro t2 hne
    by_contra hsome
    obtain ⟨m, hm⟩ := Option.ne_none_iff_exists.mp hsome
    have henc := ha (kdf key) iv (A.enc (kdf key) iv data).1 t2 m hm.symm
    have hcip : (A.enc (kdf key) iv m).1 = (A.enc (kdf key) iv data).1 := by
      rw [henc]
    obtain rfl := hx (kdf key) iv m data hcip
    exact hne (by rw [henc])

/-- Witness for the C4 theorem: the `pairAEAD` scheme satisfies the
contract, round-trips the message `3`, and rejects a tampered
ciphertext. -/
theorem encryptData_decryptData_spec_witness :
    decryptData pairAEAD String.length
        (encryptData pairAEAD String.length 3 "secret" 5).encrypted "secret"
        (encryptData pairAEAD String.length 3 "secret" 5).iv
        (encryptData pairAEAD String.length 3 "secret" 5).tag = some 3 ∧
    decryptData pairAEAD String.length
        ((encryptData pairAEAD String.length 3 "secret" 5).encrypted + 1) "secret"
        (encryptData pairAEAD String.length 3 "secret" 5).iv
        (encryptData pairAEAD String.length 3 "secret" 5).tag = none :=
  have H := encryptData_decryptData_spec pairAEAD pairAEAD_correct pairAEAD_auth
    pairAEAD_tagInj pairAEAD_cipherInj String.length 3 "secret" 5
  ⟨H.1, H.2.1 _ (Nat.succ_ne_self _)⟩

/-! ## Claim theorems: health snapshot -/

/-- Counterexample to claim C7: with the engine up and memory at 50%,
one failed deployment and zero running ones, the snapshot reports
`healthy`, although the claim demands `unhealthy` whenever failed
deployments outnumber running ones. -/
theorem claimC7_counterexample : ¬ claimC7 := by
  intro h
  have h2 := (h true 50 100 1 0).2.2 (by decide)
  exact absurd h2 (by decide)

/-- C7 (amended): the snapshot is `healthy` exactly when no error was
detected (engine reachable and memory at most 90%), even when failed
deployments outnumber running ones; when an error was detected it is
`unhealthy` exactly when failed deployments outnumber running ones and
`degraded` otherwise. -/
theorem overallStatus_characterization (docker : Bool)
    (used total failed running : Nat) :
    (overallStatus docker used total failed running = .healthy ↔
      healthErrors docker used total = []) ∧
    (overallStatus docker used total failed running = .unhealthy ↔
      (healthErrors docker used total ≠ [] ∧ failed > running)) ∧
    (overallStatus docker used total failed running = .degraded ↔
      (healthErrors docker used total ≠ [] ∧ ¬failed > running)) := by
  unfold overallStatus
  by_cases he : healthErrors docker used total = [] <;>
    by_cases hf : failed > running <;>
      simp [he, hf]

/-! ## Claim theorems: free-port allocator -/

theorem join_chunkAux (n : Nat) (l cur : List Nat) :
    (chunkAux n cur l).flatten = cur.reverse ++ l := by
  induction l generalizing cur with
  | nil =>
    by_cases hce : cur.isEmpty <;>
      simp_all [chunkAux, List.isEmpty_iff]
  | cons x xs ih =>
    by_cases hlen : cur.length + 1 = n <;>
      simp [chunkAux, hlen, ih]

theorem scanBatches_eq_find (free : Nat → Bool) (bs : List (List Nat)) :
    scanBatches free bs = bs.flatten.find? free := by
  induction bs with
  | nil => simp [scanBatches]
  | cons b rest ih =>
    rw [scanBatches]
    cases hb : b.find? free <;>
      simp [List.find?_append, hb, ih]

theorem findFreePort_eq_find (fresh : List Nat) (free : Nat → Bool) :
    findFreePort fresh free = (fresh.take PORT_CONFIG.attempts).find? free := by
  rw [findFreePort, chunked, scanBatches_eq_find, join_chunkAux]
  simp

theorem chunkAux_length_le (n : Nat) (hn : 0 < n) (l : List Nat) :
    ∀ cur, cur.length < n → ∀ c ∈ chunkAux n cur l, c.length ≤ n := by
  induction l with
  | nil =>
    intro cur hcur c hc
    by_cases hce : cur.isEmpty <;> simp [chunkAux, hce] at hc
    subst hc
    simpa using Nat.le_of_lt hcur
  | cons x xs ih =>
    intro cur hcur c hc
    by_cases hlen : cur.length + 1 = n
    · simp [chunkAux, hlen] at hc
      rcases hc with rfl | hc
      · simpa using Nat.le_of_eq hlen
      · exact ih [] (by simpa using hn) c hc
    · simp [chunkAux, hlen] at hc
      exact ih (x :: cur) (by simp; omega) c hc

theorem firstOccsAux_subset (seen l : List Nat) :
    ∀ x ∈ firstOccsAux seen l, x ∈ l := by
  induction l generalizing seen with
  | nil => simp [firstOccsAux]
  | cons y ys ih =>
    intro x hx
    by_cases hy : y ∈ seen
    · simp [firstOccsAux, hy] at hx
      exact List.mem_cons_of_mem y (ih seen x hx)
    · simp [firstOccsAux, hy] at hx
      rcases hx with rfl | hx
      · exact List.mem_cons_self x ys
      · exact List.mem_cons_of_mem y (ih (y :: seen) x hx)

theorem firstOccsAux_not_seen (seen l : List Nat) :
    ∀ x ∈ firstOccsAux seen l, x ∉ seen := by
  induction l generalizing seen with
  | nil => simp [firstOccsAux]
  | cons y ys ih =>
    intro x hx
    by_cases hy : y ∈ seen
    · simp [firstOccsAux, hy] at hx
      exact ih seen x hx
    · simp [firstOccsAux, hy] at hx
      rcases hx with rfl | hx
      · exact hy
      · intro hxseen
        exact ih (y :: seen) x hx (List.mem_cons_of_mem y hxseen)

theorem firstOccsAux_nodup (seen l : List Nat) :
    (firstOccsAux seen l).Nodup := by
  induction l generalizing seen with
  | nil => simp [firstOccsAux]
  | cons y ys ih =>
    by_cases hy : y ∈ seen
    · simpa [firstOccsAux, hy] using ih seen
    · rw [firstOccsAux]
      simp only [hy]
      refine List.nodup_cons.mpr ⟨?_, by simpa [hy] using ih (y :: seen)⟩
      intro hmem
      exact firstOccsAux_not_seen (y :: seen) ys y
        (by simpa [hy] using hmem) (List.mem_cons_self y seen)

theorem mkPort_range (r : Nat) :
    PORT_CONFIG.min ≤ mkPort r ∧ mkPort r ≤ PORT_CONFIG.max := by
  have h : r % 999 < 999 := Nat.mod_lt r (by norm_num)
  simp only [mkPort, PORT_CONFIG]
  omega

theorem find?_congr_on (l : List Nat) (f g : Nat → Bool)
    (h : ∀ x ∈ l, f x = g x) : l.find? f = l.find? g := by
  induction l with
  | nil => simp
  | cons x xs ih =>
    have hx := h x (List.mem_cons_self x xs)
    cases hfx : f x <;>
      simp [List.find?, hfx, ← hx, ih fun y hy => h y (List.mem_cons_of_mem x hy)]

/-- C5: the port allocator returns only ports from the configured range
5001-5999 that the probe reported free; it consults the probe on at
most 200 distinct ports (its result depends only on the probe values
of those ports), probes them in batches of at most 50 (each probe
bounded by the configured 250 ms timeout); and when every port is
reported busy it fails with the no-free-port error (`none`) instead of
returning a port. -/
theorem findFreePort_spec (draws : List Nat) (free : Nat → Bool) :
    (∀ p, findFreePortR draws free = some p →
      PORT_CONFIG.min ≤ p ∧ p ≤ PORT_CONFIG.max ∧ free p = true) ∧
    ((firstOccs (draws.map mkPort)).take PORT_CONFIG.attempts).Nodup ∧
    ((firstOccs (draws.map mkPort)).take PORT_CONFIG.attempts).length ≤
      PORT_CONFIG.attempts ∧
    (∀ free2 : Nat → Bool,
      (∀ q ∈ (firstOccs (draws.map mkPort)).take PORT_CONFIG.attempts,
        free q = free2 q) →
      findFreePortR draws free = findFreePortR draws free2) ∧
    (∀ c ∈ chunked PORT_CONFIG.concurrency
        ((firstOccs (draws.map mkPort)).take PORT_CONFIG.attempts),
      c.length ≤ PORT_CONFIG.concurrency) ∧
    ((∀ q, free q = false) → findFreePortR draws free = none) ∧
    PORT_CONFIG =
      { min := 5001, max := 5999, attempts := 200, concurrency := 50
        perCheckTimeoutMs := 250 } := by
  refine ⟨?_, ?_, ?_, ?_, ?_, ?_, rfl⟩
  · intro p hp
    rw [findFreePortR, findFreePort_eq_find] at hp
    have hfree := List.find?_some hp
    have hmem : p ∈ (firstOccs (draws.map mkPort)).take PORT_CONFIG.attempts :=
      List.mem_of_find?_eq_some hp
    have hmem2 : p ∈ firstOccs (draws.map mkPort) :=
      List.mem_of_mem_take hmem
    have hmem3 : p ∈ draws.map mkPort :=
      firstOccsAux_subset [] (draws.map mkPort) p hmem2
    obtain ⟨r, -, rfl⟩ := List.mem_map.mp hmem3
    exact ⟨(mkPort_range r).1, (mkPort_range r).2, hfree⟩
  · exact (List.take_sublist _ _).nodup (firstOccsAux_nodup [] _)
  · exact List.length_take_le _ _
  · intro free2 h
    rw [findFreePortR, findFreePort_eq_find, findFreePortR, findFreePort_eq_find]
    exact find?_congr_on _ free free2 h
  · intro c hc
    exact chunkAux_length_le PORT_CONFIG.concurrency (by norm_num [PORT_CONFIG]) _
      [] (by norm_num [PORT_CONFIG]) c hc
  · intro hall
    rw [findFreePortR, findFreePort_eq_find]
    exact List.find?_eq_none.mpr fun x _ => by simp [hall x]

/-- Witness for the C5 theorem: three draws mapping to ports
5001-5003; a probe that frees only 5001 yields it, the all-busy probe
yields the no-free-port error. -/
theorem findFreePort_spec_witness :
    findFreePortR [0, 1, 2] (fun q => q == 5001) = some 5001 ∧
    findFreePortR [0, 1, 2] (fun _ => false) = none :=
  ⟨by decide,
    (findFreePort_spec [0, 1, 2] (fun _ => false)).2.2.2.2.2.1 fun q => rfl⟩

/-! ## Claim theorems: destroy executor and destroy job -/

theorem destroyContainerRest_success (cid : String) (pr : Option Nat)
    (di : Bool) (cn : Option String) (eng : DockerEngine) (b : Bool)
    (errs : List String) (log : List DockerCmd) :
    (destroyContainerRest cid pr di cn eng b errs log).1.success = b ∧
    (destroyContainerRest cid pr di cn eng b errs log).1.containerDestroyed = b ∧
    ((destroyContainerRest cid pr di cn eng b errs log).1.imageDestroyed = true →
      b = true) := by
  cases b <;> simp [destroyContainerRest]

theorem destroyContainer_success_eq (cid : String) (pr : Option Nat)
    (di : Bool) (cn : Option String) (eng : DockerEngine) :
    (destroyContainer cid pr di cn eng).1.success =
      (destroyContainer cid pr di cn eng).1.containerDestroyed := by
  unfold destroyContainer
  repeat' split
  all_goals rfl

theorem destroyContainer_image_imp (cid : String) (pr : Option Nat)
    (di : Bool) (cn : Option String) (eng : DockerEngine)
    (h : (destroyContainer cid pr di cn eng).1.imageDestroyed = true) :
    (destroyContainer cid pr di cn eng).1.containerDestroyed = true := by
  revert h
  unfold destroyContainer
  repeat' split
  all_goals intro h
  all_goals
    first
    | exact h
    | exact ((destroyContainerRest_success _ _ _ _ _ _ _ _).2.1).trans
        ((destroyContainerRest_success _ _ _ _ _ _ _ _).2.2 h)

theorem destroyContainer_invalid (cid : String) (pr : Option Nat)
    (di : Bool) (cn : Option String) (eng : DockerEngine)
    (h : isValidId cid = false) :
    destroyContainer cid pr di cn eng =
      ({ success := false, containerId := cid, containerDestroyed := false,
         imageDestroyed := false,
         errors := ["Invalid container id provided: " ++ cid] }, []) := by
  unfold destroyContainer
  rw [if_pos h]

/-- C10: every `DestroyResult` produced by `destroyContainer` has
`success` exactly when `containerDestroyed`; `imageDestroyed` implies
`containerDestroyed` (images are only touched after the container was
removed); and an invalid container id yields a failed result with a
non-empty error list while running no engine command at all. -/
theorem destroyContainer_invariants (cid : String) (pr : Option Nat)
    (destroyImage : Bool) (containerName : Option String)
    (eng : DockerEngine) :
    ((destroyContainer cid pr destroyImage containerName eng).1.success =
      (destroyContainer cid pr destroyImage containerName eng).1.containerDestroyed) ∧
    ((destroyContainer cid pr destroyImage containerName eng).1.imageDestroyed = true →
      (destroyContainer cid pr destroyImage containerName eng).1.containerDestroyed = true) ∧
    (isValidId cid = false →
      (destroyContainer cid pr destroyImage containerName eng).1.success = false ∧
      (destroyContainer cid pr destroyImage containerName eng).1.errors ≠ [] ∧
      (destroyContainer cid pr destroyImage containerName eng).2 = []) := by
  refine ⟨destroyContainer_success_eq cid pr destroyImage containerName eng,
    destroyContainer_image_imp cid pr destroyImage containerName eng, ?_⟩
  intro h
  rw [destroyContainer_invalid cid pr destroyImage containerName eng h]
  simp

/-- Witness for the C10 theorem: the malformed id `!!` fails with an
error and an empty command log. -/
theorem destroyContainer_invariants_witness :
    (destroyContainer "!!" none true none failEngine).1.success = false ∧
    (destroyContainer "!!" none true none failEngine).1.errors ≠ [] ∧
    (destroyContainer "!!" none true none failEngine).2 = [] :=
  (destroyContainer_invariants "!!" none true none failEngine).2.2 (by decide)

theorem destroyEach_success_eq (pr : Nat) (name : String) (eng : DockerEngine) :
    ∀ (ids : List String) (log : List DockerCmd),
      ∀ r ∈ (destroyEach pr name eng ids log).1,
        r.success = r.containerDestroyed := by
  intro ids
  induction ids with
  | nil => intro log r hr; simp [destroyEach] at hr
  | cons i rest ih =>
    intro log r hr
    rw [destroyEach] at hr
    simp only [List.mem_cons] at hr
    rcases hr with rfl | hr
    · exact destroyContainer_success_eq i (some pr) true (some name) eng
    · exact ih _ r hr

theorem destroyByPRNumber_success_eq (pr : Nat) (eng : DockerEngine) :
    ∀ r ∈ (destroyByPRNumber pr eng).1, r.success = r.containerDestroyed := by
  intro r hr
  unfold destroyByPRNumber at hr
  split at hr
  · simp at hr
    subst hr
    rfl
  · split at hr
    · exact destroyEach_success_eq pr _ eng _ _ r hr
    · simp at hr

theorem destroyForPR_some (cid : String) (pr : Nat) (eng : DockerEngine) :
    ∃ code dr log, destroyForPR cid (some pr) eng = some ((code, dr), log) ∧
      dr.success = dr.containerDestroyed ∧
      code = (if dr.success then 0 else 1) := by
  unfold destroyForPR
  by_cases h : cid ≠ "" ∧ cid ≠ "undefined"
  · rw [if_pos h]
    exact ⟨_, _, _, rfl, destroyContainer_success_eq cid (some pr) true _ eng, rfl⟩
  · rw [if_neg h]
    refine ⟨_, _, _, rfl, ?_, rfl⟩
    cases hres : (destroyByPRNumber pr eng).1 with
    | nil => simp [hres, noContainersResult]
    | cons a rest =>
      have := destroyByPRNumber_success_eq pr eng a (by rw [hres]; exact List.mem_cons_self a rest)
      simpa [hres] using this

/-- C6: for a destroy job on a PR with a store record, the record is
deleted exactly when the executed destroy removed the container
(partial success of the other best-effort steps notwithstanding);
otherwise the record is set to `failed` with the aggregated step
errors recorded in `last_error`. -/
theorem processDestroyJob_spec (s : Store) (pr : Nat) (cid : Option String)
    (eng : DockerEngine) (now : Nat) (d : DeploymentInfo) (code : Nat)
    (dr : DestroyResult) (log : List DockerCmd)
    (hrec : lookupDeployment s pr = some d)
    (hrun : destroyForPR (cid.getD "") (some pr) eng = some ((code, dr), log)) :
    (lookupDeployment (processDestroyJob s pr cid eng now) pr = none ↔
      dr.containerDestroyed = true) ∧
    (dr.containerDestroyed = false →
      lookupDeployment (processDestroyJob s pr cid eng now) pr =
        some { applyPatch { d with status := .failed }
                 { lastError := some ("Destroy completed with warnings: " ++
                     destroyStderr dr) }
               with updatedAt := some now }) := by
  obtain ⟨code2, dr2, log2, heq, hse, hcode⟩ := destroyForPR_some (cid.getD "") pr eng
  rw [hrun] at heq
  simp only [Option.some.injEq, Prod.mk.injEq] at heq
  obtain ⟨⟨hc2, hd2⟩, -⟩ := heq
  subst hc2
  subst hd2
  unfold processDestroyJob
  rw [hrun]
  cases hcd : dr.containerDestroyed
  · have hc1 : code = 1 := by rw [hcode, hse, hcd]; decide
    subst hc1
    have hupd := lookupDeployment_update_of_some s pr .failed
      { lastError := some ("Destroy completed with warnings: " ++ destroyStderr dr) }
      now d hrec
    constructor
    · simp [hupd]
    · intro _
      simpa using hupd
  · have hc0 : code = 0 := by rw [hcode, hse, hcd]; decide
    subst hc0
    constructor
    · simp [lookup_deleteDeployment]
    · intro h
      exact Bool.noConfusion h

/-- Witness for the C6 theorem: PR 42 with a running record; every
engine command rejects, so the container is not removed, the record
survives and is set to `failed` with the aggregated error. -/
theorem processDestroyJob_spec_witness :
    lookupDeployment
      (processDestroyJob [(42, { status := .running })] 42
        (some "abc123def456") failEngine 7) 42 =
      some { status := .failed, updatedAt := some 7,
             lastError := some
               "Destroy completed with warnings: Error during container destroy: boom" } := by
  have H := processDestroyJob_spec [(42, { status := .running })] 42
    (some "abc123def456") failEngine 7 { status := .running } 1
    { success := false, containerId := "abc123def456", containerDestroyed := false,
      imageDestroyed := false,
      errors := ["Error during container destroy: boom"] }
    [.stop "abc123def456"] (by decide) (by decide)
  exact (H.2 rfl).trans (by decide)

end EnvZilla
